import Mathlib

/-!
# Verification of torchtune repository excerpts

Shallow embedding of the repository's pure logic:

* `src/torchtune/data/_prompt_templates.py` — chat prompt templates
  (`Llama2ChatTemplate`, `MistralChatTemplate`, `ChatMLTemplate`).
* `src/torchtune/modules/attention_utils.py` — block-causal mask
  construction for packed sequences.
* `src/torchtune/data/tokenizers/_tiktoken.py` — the long-repetition
  splitter used before byte-pair encoding.
* `src/llm/llama2/attention.py` — the grouped-query attention layer
  (constructor validation and the index-level dataflow of `forward`).
* `src/mm_1.py` — the multimodal fixture generator's file names.
* `padded_collate_dpo` — modelled from the spec (its module is not in
  the excerpt; only its test suite is) and checked against that suite.

Tensors are embedded as total index functions `Nat → ... → Int`; a
tensor's shape is implicit (out-of-range indices are never read by the
operations modelled here).  Python strings become `String`, Python lists
become `List`, floats appearing only in order comparisons become `ℚ`.
-/

/-- One conversation turn, from `torchtune.data._types.Message`:
a `role` string, text `content`, and a `masked` flag. -/
structure Message where
  role : String
  content : String
  masked : Bool
  deriving Repr, DecidableEq

/-- The `<<SYS>>` wrapping of a system message's content:
`Llama2ChatTemplate.system.format(content=...)` with
`B_SYS = "<<SYS>>\n"` and `E_SYS = "\n<</SYS>>\n\n"`. -/
def llama2SystemText (content : String) : String :=
  "<<SYS>>\n" ++ content ++ "\n<</SYS>>\n\n"

/-- The `[INST]` wrapping of a user message:
`Llama2ChatTemplate.user.format(system_message=..., content=...)` with
`B_INST = "[INST]"` and `E_INST = "[/INST]"`. -/
def llama2UserText (system_message content : String) : String :=
  "[INST] " ++ system_message ++ content ++ " [/INST] "

/-- The loop body of `Llama2ChatTemplate.format`, with the running
`system_message` accumulator made explicit.  A system turn updates the
accumulator and is dropped (`continue`); a user turn is wrapped with the
accumulated system text; an assistant turn passes through; any other
role falls through every branch and keeps the initial `content = ""`. -/
def llama2FormatAux (system_message : String) : List Message → List Message
  | [] => []
  | m :: ms =>
    if m.role = "system" then
      llama2FormatAux (llama2SystemText m.content) ms
    else if m.role = "user" then
      { role := m.role, content := llama2UserText system_message m.content,
        masked := m.masked } :: llama2FormatAux system_message ms
    else if m.role = "assistant" then
      { role := m.role, content := m.content, masked := m.masked } ::
        llama2FormatAux system_message ms
    else
      { role := m.role, content := "", masked := m.masked } ::
        llama2FormatAux system_message ms

/-- `Llama2ChatTemplate.format`: the accumulator starts empty. -/
def Llama2ChatTemplate.format (sample : List Message) : List Message :=
  llama2FormatAux "" sample

/-- `MistralChatTemplate.format`: identical to the Llama-2 template's
user handling but without a system accumulator; a system turn raises
`ValueError`, embedded as `Except.error`.  Any unrecognized role keeps
the initial `content = ""`. -/
def MistralChatTemplate.format : List Message → Except String (List Message)
  | [] => Except.ok []
  | m :: ms =>
    if m.role = "system" then
      Except.error "System prompts are not supported in MistralChatTemplate"
    else
      (MistralChatTemplate.format ms).map fun rest =>
        (if m.role = "user" then
          { role := m.role, content := "[INST] " ++ m.content ++ " [/INST] ",
            masked := m.masked }
        else if m.role = "assistant" then
          { role := m.role, content := m.content, masked := m.masked }
        else
          { role := m.role, content := "", masked := m.masked }) :: rest

/-- `ChatMLTemplate.format`: every recognized role is wrapped in
`<|im_start|>role\n...<|im_end|>` tags (assistant without trailing
newline); any other role keeps the initial `content = ""`. -/
def ChatMLTemplate.format : List Message → List Message
  | [] => []
  | m :: ms =>
    (if m.role = "system" then
      { role := m.role,
        content := "<|im_start|>system\n" ++ m.content ++ "<|im_end|>\n",
        masked := m.masked }
    else if m.role = "user" then
      { role := m.role,
        content := "<|im_start|>user\n" ++ m.content ++ "<|im_end|>\n",
        masked := m.masked }
    else if m.role = "assistant" then
      { role := m.role,
        content := "<|im_start|>assistant\n" ++ m.content ++ "<|im_end|>",
        masked := m.masked }
    else
      { role := m.role, content := "", masked := m.masked }) ::
      ChatMLTemplate.format ms

/-- C4: on a [system, user, assistant, user, assistant] conversation,
`Llama2ChatTemplate.format` returns exactly 4 messages: the system turn
is dropped, each user turn is wrapped as
`[INST] <<SYS>>\n<sys>\n<</SYS>>\n\n<user content> [/INST] ` with the
identical system text embedded in both wrappers, assistant turns pass
through unmodified, and every output preserves the input's role and
masked flag. -/
theorem llama2_format_five_turn_conversation
    (s u1 a1 u2 a2 : String) (ms mu1 ma1 mu2 ma2 : Bool) :
    Llama2ChatTemplate.format
      [{ role := "system", content := s, masked := ms },
       { role := "user", content := u1, masked := mu1 },
       { role := "assistant", content := a1, masked := ma1 },
       { role := "user", content := u2, masked := mu2 },
       { role := "assistant", content := a2, masked := ma2 }] =
      [{ role := "user", content := llama2UserText (llama2SystemText s) u1,
         masked := mu1 },
       { role := "assistant", content := a1, masked := ma1 },
       { role := "user", content := llama2UserText (llama2SystemText s) u2,
         masked := mu2 },
       { role := "assistant", content := a2, masked := ma2 }] := by
  rfl

/-- C10: a message whose role is none of system/user/assistant never
makes `Llama2ChatTemplate.format`, `ChatMLTemplate.format`, or
`MistralChatTemplate.format` fail; each template emits a message with
the same role and masked flag and empty content, discarding the
original content. -/
theorem unrecognized_role_yields_empty_content (m : Message)
    (h1 : m.role ≠ "system") (h2 : m.role ≠ "user")
    (h3 : m.role ≠ "assistant") :
    (∀ sysm ms, llama2FormatAux sysm (m :: ms) =
      { role := m.role, content := "", masked := m.masked } ::
        llama2FormatAux sysm ms) ∧
    (∀ ms, Llama2ChatTemplate.format (m :: ms) =
      { role := m.role, content := "", masked := m.masked } ::
        llama2FormatAux "" ms) ∧
    (∀ ms, ChatMLTemplate.format (m :: ms) =
      { role := m.role, content := "", masked := m.masked } ::
        ChatMLTemplate.format ms) ∧
    (∀ ms, MistralChatTemplate.format (m :: ms) =
      (MistralChatTemplate.format ms).map
        (fun rest =>
          { role := m.role, content := "", masked := m.masked } :: rest)) := by
  refine ⟨fun sysm ms => ?_, fun ms => ?_, fun ms => ?_, fun ms => ?_⟩
  · simp [llama2FormatAux, h1, h2, h3]
  · simp [Llama2ChatTemplate.format, llama2FormatAux, h1, h2, h3]
  · simp [ChatMLTemplate.format, h1, h2, h3]
  · simp [MistralChatTemplate.format, h1, h2, h3]

/-- Witness for C10 at the concrete message
`{role := "tool", content := "hi", masked := true}`. -/
theorem unrecognized_role_yields_empty_content_witness :
    llama2FormatAux "" [{ role := "tool", content := "hi", masked := true }] =
      [{ role := "tool", content := "", masked := true }] :=
  (unrecognized_role_yields_empty_content
    { role := "tool", content := "hi", masked := true }
    (by decide) (by decide) (by decide)).1 "" []

/-! ## Packed-sequence block-causal masks
(`src/torchtune/modules/attention_utils.py`) -/

/-- The `torch.cat`-of-`torch.full` loop body of
`_get_document_ids_from_seq_lens` for one sample, with the enumeration
counter `i` explicit: length `l` contributes `l` copies of the current
document index. -/
def docIdsFrom (i : Nat) : List Nat → List Nat
  | [] => []
  | l :: ls => List.replicate l i ++ docIdsFrom (i + 1) ls

/-- `_get_document_ids_from_seq_lens`: per sample, positions are
labelled with the 0-based index of the sub-sequence they belong to. -/
def get_document_ids_from_seq_lens (seq_lens : List (List Nat)) :
    List (List Nat) :=
  seq_lens.map (docIdsFrom 0)

/-- `torch.tril(torch.ones(n, n, dtype=torch.bool))`: the lower
triangular all-true square matrix. -/
def trilOnes (n : Nat) : List (List Bool) :=
  (List.range n).map fun q => (List.range n).map fun k => decide (k ≤ q)

/-- `torch.block_diag` restricted to square boolean blocks, which is
how `create_block_causal_mask` uses it: each block's rows are padded
with `false` on the right by the width of the later blocks, rows of
later blocks are padded on the left by the width of this block. -/
def blockDiag : List (List (List Bool)) → List (List Bool)
  | [] => []
  | m :: ms =>
    let rest := blockDiag ms
    m.map (fun row => row ++ List.replicate rest.length false) ++
      rest.map (fun row => List.replicate m.length false ++ row)

/-- `create_block_causal_mask`: per sample, the block-diagonal stack of
lower-triangular all-true matrices, one per sub-sequence length. -/
def create_block_causal_mask (seq_lens : List (List Nat)) :
    List (List (List Bool)) :=
  seq_lens.map fun sample => blockDiag (sample.map trilOnes)

/-- Entry read of a 2-D boolean matrix, `false` out of range. -/
def maskEntry (m : List (List Bool)) (q k : Nat) : Bool :=
  (m.getD q []).getD k false

/-- One sample's document id at position `p` (0 out of range). -/
def docId (ls : List Nat) (p : Nat) : Nat :=
  (docIdsFrom 0 ls).getD p 0

theorem getD_map_of_lt {α β : Type} (f : α → β) (l : List α) (n : Nat)
    (d : β) (a : α) (h : n < l.length) :
    (l.map f).getD n d = f (l.getD n a) := by
  simp [List.getD_eq_getElem?_getD, List.getElem?_map,
    List.getElem?_eq_getElem h]

theorem getD_replicate_of_lt {α : Type} (a d : α) (n m : Nat) (h : m < n) :
    (List.replicate n a).getD m d = a := by
  simp [List.getD_eq_getElem?_getD, List.getElem?_replicate, h]

theorem getD_replicate_self {α : Type} (a : α) (n m : Nat) :
    (List.replicate n a).getD m a = a := by
  simp only [List.getD_eq_getElem?_getD, List.getElem?_replicate]
  split <;> simp

theorem range_getD (l q : Nat) (h : q < l) : (List.range l).getD q 0 = q := by
  simp [List.getD_eq_getElem?_getD, List.getElem?_range h]

theorem docIdsFrom_length (i : Nat) (ls : List Nat) :
    (docIdsFrom i ls).length = ls.sum := by
  induction ls generalizing i with
  | nil => rfl
  | cons l t ih => simp [docIdsFrom, ih, List.sum_cons]

theorem docIdsFrom_succ (i : Nat) (ls : List Nat) :
    docIdsFrom (i + 1) ls = (docIdsFrom i ls).map (· + 1) := by
  induction ls generalizing i with
  | nil => rfl
  | cons l t ih => simp [docIdsFrom, ih, List.map_replicate]

theorem docId_cons_lt (l : Nat) (ls : List Nat) (p : Nat) (h : p < l) :
    docId (l :: ls) p = 0 := by
  unfold docId docIdsFrom
  rw [List.getD_append _ _ _ _ (by simpa using h)]
  exact getD_replicate_self 0 l p

theorem docId_cons_ge (l : Nat) (ls : List Nat) (p : Nat) (h : l ≤ p)
    (h2 : p - l < ls.sum) :
    docId (l :: ls) p = docId ls (p - l) + 1 := by
  unfold docId
  rw [show docIdsFrom 0 (l :: ls) =
        List.replicate l 0 ++ docIdsFrom 1 ls from rfl]
  rw [List.getD_append_right _ _ _ _ (by simpa using h)]
  have hs : docIdsFrom 1 ls = (docIdsFrom 0 ls).map (· + 1) :=
    docIdsFrom_succ 0 ls
  rw [List.length_replicate, hs,
    getD_map_of_lt (· + 1) _ _ _ 0 (by rwa [docIdsFrom_length])]

theorem trilOnes_length (n : Nat) : (trilOnes n).length = n := by
  simp [trilOnes]

theorem blockDiag_tril_length (ls : List Nat) :
    (blockDiag (ls.map trilOnes)).length = ls.sum := by
  induction ls with
  | nil => rfl
  | cons l t ih => simp [blockDiag, trilOnes, ih, List.sum_cons]

theorem blockDiag_tril_row_length (ls : List Nat) :
    ∀ row ∈ blockDiag (ls.map trilOnes), row.length = ls.sum := by
  induction ls with
  | nil => simp [blockDiag]
  | cons l t ih =>
    intro row hrow
    simp only [List.map_cons, blockDiag, List.mem_append,
      List.mem_map] at hrow
    rcases hrow with ⟨r, hr, rfl⟩ | ⟨r, hr, rfl⟩
    · have : r.length = l := by
        simp only [trilOnes, List.mem_map] at hr
        obtain ⟨q, _, rfl⟩ := hr
        simp
      simp [this, blockDiag_tril_length, List.sum_cons]
    · simp [trilOnes_length, ih r hr, List.sum_cons]

theorem maskEntry_blockDiag_tril (ls : List Nat) (q k : Nat)
    (hq : q < ls.sum) (hk : k < ls.sum) :
    maskEntry (blockDiag (ls.map trilOnes)) q k =
      (decide (k ≤ q) && decide (docId ls q = docId ls k)) := by
  induction ls generalizing q k with
  | nil => simp at hq
  | cons l t ih =>
    have hsum : (l :: t).sum = l + t.sum := List.sum_cons
    rw [hsum] at hq hk
    simp only [List.map_cons, blockDiag]
    set R := blockDiag (t.map trilOnes) with hR
    have hRlen : R.length = t.sum := blockDiag_tril_length t
    have hAlen :
        ((trilOnes l).map
          (fun row => row ++ List.replicate R.length false)).length = l := by
      simp [trilOnes_length]
    unfold maskEntry
    by_cases hql : q < l
    · rw [List.getD_append _ _ _ _ (by rw [hAlen]; exact hql)]
      rw [getD_map_of_lt _ _ _ _ [] (by rw [trilOnes_length]; exact hql)]
      rw [show (trilOnes l).getD q [] =
            (List.range l).map (fun ki => decide (ki ≤ (List.range l).getD q 0))
          from getD_map_of_lt _ _ _ _ 0 (by simpa using hql)]
      rw [range_getD l q hql]
      by_cases hkl : k < l
      · rw [List.getD_append _ _ _ _ (by simpa using hkl)]
        rw [getD_map_of_lt _ _ _ _ 0 (by simpa using hkl), range_getD l k hkl]
        rw [docId_cons_lt l t q hql, docId_cons_lt l t k hkl]
        simp
      · rw [List.getD_append_right _ _ _ _ (by simpa using hkl)]
        rw [getD_replicate_self]
        have : ¬ (k ≤ q) := by omega
        simp [this]
    · push_neg at hql
      rw [List.getD_append_right _ _ _ _ (by rw [hAlen]; exact hql)]
      rw [hAlen]
      have hqR : q - l < R.length := by rw [hRlen]; omega
      rw [getD_map_of_lt _ _ _ _ [] hqR]
      by_cases hkl : k < l
      · rw [List.getD_append _ _ _ _ (by simpa [trilOnes_length] using hkl)]
        rw [trilOnes_length, getD_replicate_self]
        rw [docId_cons_ge l t q hql (by omega), docId_cons_lt l t k hkl]
        simp
      · push_neg at hkl
        rw [List.getD_append_right _ _ _ _
          (by simpa [trilOnes_length] using hkl)]
        rw [trilOnes_length]
        have hentry := ih (q - l) (k - l) (by omega) (by omega)
        unfold maskEntry at hentry
        rw [List.length_replicate, hentry]
        rw [docId_cons_ge l t q hql (by omega),
          docId_cons_ge l t k hkl (by omega)]
        congr 1
        · exact decide_eq_decide.mpr (by omega)
        · exact decide_eq_decide.mpr (by omega)

/-- C2: each sample of `create_block_causal_mask` is the square matrix
whose entry `(q, k)` is true iff `k ≤ q` and positions `q` and `k`
carry the same document id per `_get_document_ids_from_seq_lens`; and
`seq_lens = [3,2,1]` yields the 6×6 block-diagonal stack of
lower-triangular all-true 3×3, 2×2, 1×1 blocks, false elsewhere. -/
theorem create_block_causal_mask_spec :
    (∀ (batch : List (List Nat)) (i q k : Nat), i < batch.length →
      q < (batch.getD i []).sum → k < (batch.getD i []).sum →
      maskEntry ((create_block_causal_mask batch).getD i []) q k =
        (decide (k ≤ q) &&
         decide (((get_document_ids_from_seq_lens batch).getD i []).getD q 0 =
           ((get_document_ids_from_seq_lens batch).getD i []).getD k 0))) ∧
    (∀ (batch : List (List Nat)) (i : Nat), i < batch.length →
      ((create_block_causal_mask batch).getD i []).length =
        (batch.getD i []).sum ∧
      ∀ row ∈ (create_block_causal_mask batch).getD i [],
        row.length = (batch.getD i []).sum) ∧
    create_block_causal_mask [[3, 2, 1]] =
      [[[true, false, false, false, false, false],
        [true, true, false, false, false, false],
        [true, true, true, false, false, false],
        [false, false, false, true, false, false],
        [false, false, false, true, true, false],
        [false, false, false, false, false, true]]] := by
  refine ⟨?_, ?_, by decide⟩
  · intro batch i q k hi hq hk
    rw [show (create_block_causal_mask batch).getD i [] =
          blockDiag ((batch.getD i []).map trilOnes) from
        getD_map_of_lt _ _ _ _ [] hi]
    rw [show (get_document_ids_from_seq_lens batch).getD i [] =
          docIdsFrom 0 (batch.getD i []) from
        getD_map_of_lt _ _ _ _ [] hi]
    exact maskEntry_blockDiag_tril (batch.getD i []) q k hq hk
  · intro batch i hi
    rw [show (create_block_causal_mask batch).getD i [] =
          blockDiag ((batch.getD i []).map trilOnes) from
        getD_map_of_lt _ _ _ _ [] hi]
    exact ⟨blockDiag_tril_length _, blockDiag_tril_row_length _⟩

/-- Witness for C2 at `seq_lens = [[3,2,1]]`, entry `(q,k) = (4,3)`
(inside the 2×2 block: true). -/
theorem create_block_causal_mask_spec_witness :
    maskEntry ((create_block_causal_mask [[3, 2, 1]]).getD 0 []) 4 3 =
      (decide (3 ≤ 4) &&
       decide (((get_document_ids_from_seq_lens [[3, 2, 1]]).getD 0 []).getD 4 0 =
         ((get_document_ids_from_seq_lens [[3, 2, 1]]).getD 0 []).getD 3 0)) :=
  create_block_causal_mask_spec.1 [[3, 2, 1]] 0 4 3 (by decide) (by decide)
    (by decide)


/-! ## Tokenizer long-repetition splitter
(`src/torchtune/data/tokenizers/_tiktoken.py`) -/

/-- `MAX_NO_WHITESPACE_CHARS = 25_000`. -/
def MAX_NO_WHITESPACE_CHARS : Nat := 25000

/-- The scanning loop of `TikTokenEncoding._split_long_repetitions`,
with the loop variables explicit: `i` is the scan position,
`curLen`/`curIsSpace` track the current same-class run, `sliceStart`
the start of the piece being built.  A class flip resets the run; a run
exceeding `maxLen` cuts a piece `s[slice_start:i]` and restarts at `i`;
the trailing piece `s[slice_start:]` is always yielded.  Python's
`str.isspace` is embedded as `Char.isWhitespace`. -/
def splitLoop (s : List Char) (maxLen : Nat) (i curLen : Nat)
    (curIsSpace : Bool) (sliceStart : Nat) : List (List Char) :=
  if h : i < s.length then
    if curIsSpace ≠ (s.get ⟨i, h⟩).isWhitespace then
      splitLoop s maxLen (i + 1) 1 (s.get ⟨i, h⟩).isWhitespace sliceStart
    else if curLen + 1 > maxLen then
      (s.drop sliceStart).take (i - sliceStart) ::
        splitLoop s maxLen (i + 1) 1 curIsSpace i
    else
      splitLoop s maxLen (i + 1) (curLen + 1) curIsSpace sliceStart
  else
    [s.drop sliceStart]
termination_by s.length - i

/-- `TikTokenEncoding._split_long_repetitions`: the loop starts at
position 0 with an empty run whose class is that of `s[0]` (`false`
for empty `s`). -/
def split_long_repetitions (s : List Char) (maxLen : Nat) :
    List (List Char) :=
  splitLoop s maxLen 0 0
    (match s with
     | [] => false
     | c :: _ => c.isWhitespace) 0

theorem splitLoop_flatten (s : List Char) (maxLen : Nat) :
    ∀ i curLen curIsSpace sliceStart, sliceStart ≤ i →
      (splitLoop s maxLen i curLen curIsSpace sliceStart).flatten =
        s.drop sliceStart := by
  have main : ∀ n i curLen curIsSpace sliceStart, s.length - i ≤ n →
      sliceStart ≤ i →
      (splitLoop s maxLen i curLen curIsSpace sliceStart).flatten =
        s.drop sliceStart := by
    intro n
    induction n with
    | zero =>
      intro i curLen curIsSpace sliceStart hn hss
      rw [splitLoop, dif_neg (by omega)]
      simp
    | succ n ihn =>
      intro i curLen curIsSpace sliceStart hn hss
      rw [splitLoop]
      by_cases h : i < s.length
      · rw [dif_pos h]
        by_cases hflip : curIsSpace ≠ (s.get ⟨i, h⟩).isWhitespace
        · rw [if_pos hflip]
          exact ihn (i + 1) 1 _ sliceStart (by omega) (by omega)
        · rw [if_neg hflip]
          by_cases hcut : curLen + 1 > maxLen
          · rw [if_pos hcut, List.flatten_cons,
              ihn (i + 1) 1 curIsSpace i (by omega) (by omega)]
            have hdrop : s.drop i = (s.drop sliceStart).drop (i - sliceStart) := by
              rw [List.drop_drop]
              congr 1
              omega
            rw [hdrop, List.take_append_drop]
          · rw [if_neg hcut]
            exact ihn (i + 1) (curLen + 1) curIsSpace sliceStart (by omega)
              (by omega)
      · rw [dif_neg h]
        simp
  intro i curLen curIsSpace sliceStart hss
  exact main (s.length - i) i curLen curIsSpace sliceStart le_rfl hss

/-- On a string whose characters all have the same whitespace class
(matching the tracked class), every piece the loop yields has length
at most `maxLen`. -/
theorem splitLoop_uniform_bound (s : List Char) (maxLen : Nat)
    (hm : 0 < maxLen) (b : Bool)
    (huni : ∀ j (hj : j < s.length), (s.get ⟨j, hj⟩).isWhitespace = b) :
    ∀ i curLen sliceStart, i ≤ s.length → sliceStart ≤ i →
      curLen = i - sliceStart → curLen ≤ maxLen →
      ∀ p ∈ splitLoop s maxLen i curLen b sliceStart,
        p.length ≤ maxLen := by
  have main : ∀ n i curLen sliceStart, s.length - i ≤ n →
      i ≤ s.length → sliceStart ≤ i → curLen = i - sliceStart →
      curLen ≤ maxLen →
      ∀ p ∈ splitLoop s maxLen i curLen b sliceStart,
        p.length ≤ maxLen := by
    intro n
    induction n with
    | zero =>
      intro i curLen sliceStart hn hi hss hinv hbound p hp
      rw [splitLoop, dif_neg (by omega)] at hp
      rw [List.mem_singleton.mp hp]
      simp only [List.length_drop]
      omega
    | succ n ihn =>
      intro i curLen sliceStart hn hi hss hinv hbound p hp
      rw [splitLoop] at hp
      by_cases h : i < s.length
      · rw [dif_pos h, huni i h, if_neg (by simp)] at hp
        by_cases hcut : curLen + 1 > maxLen
        · rw [if_pos hcut] at hp
          rcases List.mem_cons.mp hp with rfl | hpr
          · simp only [List.length_take, List.length_drop]
            omega
          · exact ihn (i + 1) 1 i (by omega) (by omega) (by omega)
              (by omega) (by omega) p hpr
        · rw [if_neg hcut] at hp
          exact ihn (i + 1) (curLen + 1) sliceStart (by omega) (by omega)
            (by omega) (by omega) (by omega) p hp
      · rw [dif_neg h] at hp
        rw [List.mem_singleton.mp hp]
        simp only [List.length_drop]
        omega
  intro i curLen sliceStart hi hss hinv hbound
  exact main (s.length - i) i curLen sliceStart le_rfl hi hss hinv hbound

/-- C5: the pieces yielded by `_split_long_repetitions` concatenate, in
yield order, to exactly the input string; and on 30,000 identical
whitespace characters with `MAX_NO_WHITESPACE_CHARS`, every yielded
piece has length at most 25,000. -/
theorem split_long_repetitions_spec :
    (∀ (s : List Char) (maxLen : Nat),
      (split_long_repetitions s maxLen).flatten = s) ∧
    ((split_long_repetitions (List.replicate 30000 ' ')
        MAX_NO_WHITESPACE_CHARS).all
      (fun p => decide (p.length ≤ 25000)) = true) := by
  constructor
  · intro s maxLen
    unfold split_long_repetitions
    rw [splitLoop_flatten s maxLen 0 _ _ 0 le_rfl]
    rfl
  · rw [List.all_eq_true]
    intro p hp
    rw [decide_eq_true_iff]
    have huni : ∀ j (hj : j < (List.replicate 30000 ' ').length),
        ((List.replicate 30000 ' ').get ⟨j, hj⟩).isWhitespace = true := by
      intro j hj
      show ((List.replicate 30000 ' ')[j]).isWhitespace = true
      rw [List.getElem_replicate]
      decide
    unfold split_long_repetitions at hp
    have hfirst :
        (match List.replicate 30000 ' ' with
         | [] => false
         | c :: _ => c.isWhitespace) = true := by decide
    rw [hfirst] at hp
    exact splitLoop_uniform_bound (List.replicate 30000 ' ')
      MAX_NO_WHITESPACE_CHARS (by decide) true huni 0 0 0
      (Nat.zero_le _) le_rfl rfl (by decide) p hp

/-! ## Grouped-query attention layer (`src/llm/llama2/attention.py`) -/

/-- The configuration stored by `LlamaSelfAttention.__init__` after
validation.  `attn_dropout` is a Python float used only in order
comparisons, embedded as `ℚ`. -/
structure LlamaSelfAttention where
  num_heads : Nat
  num_kv_heads : Nat
  embed_dim : Nat
  attn_dropout : ℚ
  head_dim : Nat
  max_seq_len : Nat
  deriving Repr, DecidableEq

/-- `LlamaSelfAttention.__init__`: raises `ValueError` (embedded as
`Except.error`) when `num_kv_heads` is truthy (not `None` and nonzero)
and does not divide `num_heads`, when `embed_dim` is not divisible by
`num_heads`, or when `attn_dropout` is outside `[0, 1]`; otherwise
stores the fields, with `num_kv_heads` defaulting to `num_heads` when
falsy (`None` or `0`) and `head_dim = embed_dim // num_heads`.
(Python would raise `ZeroDivisionError` on `embed_dim % 0`; this
embedding is read with `num_heads > 0`, as in every theorem using
it.) -/
def LlamaSelfAttention.init (embed_dim num_heads max_seq_len : Nat)
    (num_kv_heads : Option Nat) (attn_dropout : ℚ) :
    Except String LlamaSelfAttention :=
  if (match num_kv_heads with
      | some k => k != 0 && num_heads % k != 0
      | none => false) then
    Except.error "num_heads must be divisible by num_kv_heads"
  else if embed_dim % num_heads != 0 then
    Except.error "embed_dim must be divisible by num_heads"
  else if attn_dropout < 0 ∨ attn_dropout > 1 then
    Except.error "attn_dropout must be between 0.0 and 1.0"
  else
    Except.ok
      { num_heads := num_heads
        num_kv_heads :=
          match num_kv_heads with
          | some k => if k = 0 then num_heads else k
          | none => num_heads
        embed_dim := embed_dim
        attn_dropout := attn_dropout
        head_dim := embed_dim / num_heads
        max_seq_len := max_seq_len }

/-- A 4-D tensor as a total index function. -/
abbrev Tensor4 : Type := Nat → Nat → Nat → Nat → Int

/-- The key slice of the qkv split: entry `(b, s, g, 0, d)` of
`qkv.view(bsz, seq_len, num_kv_heads, q_per_kv + 2, head_dim)` at
sub-head index `q_per_kv`. -/
def qkvKeySlice (cfg : LlamaSelfAttention) (qkv : Nat → Nat → Nat → Int)
    (b s g d : Nat) : Int :=
  let q_per_kv := cfg.num_heads / cfg.num_kv_heads
  qkv b s (g * ((q_per_kv + 2) * cfg.head_dim) + q_per_kv * cfg.head_dim + d)

/-- The value slice of the qkv split: entry `(b, s, g, 0, d)` of the
same view at sub-head index `q_per_kv + 1`. -/
def qkvValueSlice (cfg : LlamaSelfAttention) (qkv : Nat → Nat → Nat → Int)
    (b s g d : Nat) : Int :=
  let q_per_kv := cfg.num_heads / cfg.num_kv_heads
  qkv b s
    (g * ((q_per_kv + 2) * cfg.head_dim) + (q_per_kv + 1) * cfg.head_dim + d)

/-- The dataflow of `LlamaSelfAttention.forward` from the qkv
projection output to the three tensors handed to
`scaled_dot_product_attention` (attention.py lines 139-198).  The qkv
projection output `self.qkv_proj(x)` and the rotary encoding
`self.rope` are opaque and passed as arguments; the SDPA kernel and
`self.output_proj` (external library code) consume the returned
triple.  View/split/reshape/transpose are index arithmetic on total
index functions; heads index `h` of the `(b, s, -1, h_d)` reshape
decomposes as `g = h / q_per_kv`, `j = h % q_per_kv`.  The expand of
`k`/`v` across `q_per_kv` sub-heads is written unconditionally: when
`num_heads = num_kv_heads` the source skips it, but then
`q_per_kv = 1` and the reshape reads only sub-head index 0, where the
un-expanded tensor agrees.  Line 178 of the source reads
`v = k.reshape(...)`, so the values tensor below is built from the key
slice. -/
def forward_sdpa_args (cfg : LlamaSelfAttention)
    (rope : Tensor4 → Tensor4) (qkv : Nat → Nat → Nat → Int)
    (bsz seq_len : Nat) :
    Except String (Tensor4 × Tensor4 × Tensor4) :=
  if seq_len > cfg.max_seq_len then
    Except.error "seq_len of input tensor should be smaller than max_seq_len"
  else
    let q_per_kv := cfg.num_heads / cfg.num_kv_heads
    let total_qkv := q_per_kv + 2
    -- qkv = qkv.view(bsz, seq_len, num_kv_heads, total_qkv, head_dim)
    let qkv5 : Nat → Nat → Nat → Nat → Nat → Int := fun b s g t d =>
      qkv b s (g * (total_qkv * cfg.head_dim) + t * cfg.head_dim + d)
    -- q, k, v = qkv.split((q_per_kv, 1, 1), dim=3), then k and v expanded
    -- across the q_per_kv sub-heads (the sub-head argument is ignored)
    let q : Nat → Nat → Nat → Nat → Nat → Int := fun b s g j d =>
      qkv5 b s g j d
    let k : Nat → Nat → Nat → Nat → Nat → Int := fun b s g _ d =>
      qkv5 b s g q_per_kv d
    let v : Nat → Nat → Nat → Nat → Nat → Int := fun b s g _ d =>
      qkv5 b s g (q_per_kv + 1) d
    -- q = q.reshape(bsz, seq_len, -1, head_dim)
    let qR : Tensor4 := fun b s h d => q b s (h / q_per_kv) (h % q_per_kv) d
    -- k = k.reshape(bsz, seq_len, -1, head_dim)
    let kR : Tensor4 := fun b s h d => k b s (h / q_per_kv) (h % q_per_kv) d
    -- v = k.reshape(bsz, seq_len, -1, head_dim)  [sic: reads k, not v]
    let vR : Tensor4 := fun b s h d => k b s (h / q_per_kv) (h % q_per_kv) d
    -- q = self.rope(q); k = self.rope(k)
    let qRot := rope qR
    let kRot := rope kR
    -- transpose(1, 2): result indexed (b, n_h, s, h_d)
    Except.ok (fun b h s d => qRot b s h d, fun b h s d => kRot b s h d,
      fun b h s d => vR b s h d)

/-- Concrete MHA configuration with one head of dimension one:
`qkv_dim = 3`, so the projection output per position is the flat
vector `[q, k, v]`. -/
def bugCfg : LlamaSelfAttention :=
  { num_heads := 1, num_kv_heads := 1, embed_dim := 1, attn_dropout := 0,
    head_dim := 1, max_seq_len := 4096 }

/-- C1 (failing): on a projection output whose key slice holds 1 and
whose value slice holds 2, the tensor `forward` passes as the values
argument of scaled-dot-product attention holds the key slice's 1, not
the value slice's 2 — `forward` derives it via `v = k.reshape(...)`
(attention.py line 178), contradicting the claim that the values
argument is derived from the value slice. -/
theorem forward_sdpa_values_come_from_key_slice :
    ∃ qkt : Tensor4 × Tensor4 × Tensor4,
      forward_sdpa_args bugCfg id (fun _ _ j => (j : Int)) 1 1 =
        Except.ok qkt ∧
      qkvKeySlice bugCfg (fun _ _ j => (j : Int)) 0 0 0 0 = 1 ∧
      qkvValueSlice bugCfg (fun _ _ j => (j : Int)) 0 0 0 0 = 2 ∧
      qkt.2.2 0 0 0 0 = 1 ∧
      qkt.2.2 0 0 0 0 ≠ qkvValueSlice bugCfg (fun _ _ j => (j : Int)) 0 0 0 0 := by
  refine ⟨_, rfl, rfl, rfl, rfl, by decide⟩

/-- C7: `forward` fails iff the sequence length exceeds
`max_seq_len`; a sequence of length exactly `max_seq_len` is
accepted. -/
theorem forward_rejects_iff_too_long :
    (∀ (cfg : LlamaSelfAttention) (rope : Tensor4 → Tensor4)
       (qkv : Nat → Nat → Nat → Int) (bsz seq_len : Nat),
      (forward_sdpa_args cfg rope qkv bsz seq_len).isOk = true ↔
        seq_len ≤ cfg.max_seq_len) ∧
    (forward_sdpa_args bugCfg id (fun _ _ _ => 0) 1 4096).isOk = true ∧
    (forward_sdpa_args bugCfg id (fun _ _ _ => 0) 1 4097).isOk = false := by
  refine ⟨fun cfg rope qkv bsz seq_len => ?_, rfl, rfl⟩
  unfold forward_sdpa_args
  by_cases h : seq_len > cfg.max_seq_len
  · rw [if_pos h]
    simp [Except.isOk, Except.toBool]
    omega
  · rw [if_neg h]
    simp [Except.isOk, Except.toBool]
    omega

/-- C6: under positive `num_heads`, `embed_dim`, and (when given)
`num_kv_heads`, construction fails iff `num_heads` is not divisible by
a given `num_kv_heads`, or `embed_dim` is not divisible by
`num_heads`, or `attn_dropout` lies outside `[0, 1]`; in particular
`num_heads=8, num_kv_heads=2` succeeds and `num_heads=8,
num_kv_heads=3` fails. -/
theorem init_invalid_configuration_iff :
    (∀ (embed_dim num_heads max_seq_len : Nat) (num_kv_heads : Option Nat)
       (attn_dropout : ℚ),
      0 < num_heads → 0 < embed_dim →
      (∀ k, num_kv_heads = some k → 0 < k) →
      ((LlamaSelfAttention.init embed_dim num_heads max_seq_len num_kv_heads
          attn_dropout).isOk = false ↔
        (∃ k, num_kv_heads = some k ∧ num_heads % k ≠ 0) ∨
          embed_dim % num_heads ≠ 0 ∨ attn_dropout < 0 ∨ 1 < attn_dropout)) ∧
    (LlamaSelfAttention.init 64 8 4096 (some 2) 0).isOk = true ∧
    (LlamaSelfAttention.init 64 8 4096 (some 3) 0).isOk = false := by
  refine ⟨?_, by decide, by decide⟩
  intro ed nh msl kv d hnh hed hkv
  cases kv with
  | none =>
    unfold LlamaSelfAttention.init
    split_ifs with h1 h2 h3 <;>
      simp_all [Except.isOk, Except.toBool]
  | some k =>
    have hk : 0 < k := hkv k rfl
    unfold LlamaSelfAttention.init
    split_ifs with h1 h2 h3 <;>
      simp_all [Except.isOk, Except.toBool, Nat.pos_iff_ne_zero]

/-- C9: passing `num_kv_heads = 0` explicitly is treated exactly like
not passing it: the construction result equals the `None` result for
all arguments (so the divisibility check never fires on account of
`num_kv_heads`), and a successful construction stores
`num_kv_heads = num_heads` (plain MHA). -/
theorem init_num_kv_heads_zero_treated_as_not_given :
    (∀ (embed_dim num_heads max_seq_len : Nat) (attn_dropout : ℚ),
      LlamaSelfAttention.init embed_dim num_heads max_seq_len (some 0)
          attn_dropout =
        LlamaSelfAttention.init embed_dim num_heads max_seq_len none
          attn_dropout) ∧
    (∀ (embed_dim num_heads max_seq_len : Nat) (attn_dropout : ℚ)
       (a : LlamaSelfAttention),
      LlamaSelfAttention.init embed_dim num_heads max_seq_len (some 0)
          attn_dropout = Except.ok a →
      a.num_kv_heads = num_heads) := by
  constructor
  · intro ed nh msl d
    rfl
  · intro ed nh msl d a h
    unfold LlamaSelfAttention.init at h
    split_ifs at h with h1 h2 h3
    all_goals cases h
    all_goals rfl

/-- Witness for C6 at `embed_dim=64, num_heads=8, num_kv_heads=3`:
construction fails and the failure condition holds. -/
theorem init_invalid_configuration_iff_witness :
    (LlamaSelfAttention.init 64 8 4096 (some 3) 0).isOk = false ↔
      (∃ k, (some 3 : Option Nat) = some k ∧ 8 % k ≠ 0) ∨
        64 % 8 ≠ 0 ∨ (0 : ℚ) < 0 ∨ 1 < (0 : ℚ) :=
  init_invalid_configuration_iff.1 64 8 4096 (some 3) 0 (by decide) (by decide)
    (by intro k hk; cases hk; decide)

/-- Witness for C9 at `embed_dim=4, num_heads=2, num_kv_heads=0`:
the stored `num_kv_heads` equals `num_heads = 2`. -/
theorem init_num_kv_heads_zero_treated_as_not_given_witness :
    ({ num_heads := 2, num_kv_heads := 2, embed_dim := 4, attn_dropout := 0,
       head_dim := 2, max_seq_len := 4096 } :
        LlamaSelfAttention).num_kv_heads = 2 :=
  init_num_kv_heads_zero_treated_as_not_given.2 4 2 4096 0
    { num_heads := 2, num_kv_heads := 2, embed_dim := 4, attn_dropout := 0,
      head_dim := 2, max_seq_len := 4096 } (by rfl)

/-! ## DPO batch collation (module not in the excerpt; modelled from
the spec and checked against `src/tests/torchtune/data/test_collate.py`) -/

/-- One sample of a direct-preference-optimization batch. -/
structure DpoSample where
  chosen_input_ids : List Int
  chosen_labels : List Int
  rejected_input_ids : List Int
  rejected_labels : List Int
  deriving Repr, DecidableEq

/-- Right-pad a sequence to length `n` with `padVal` (no-op when the
sequence is at least that long). -/
def rightPadTo (padVal : Int) (n : Nat) (xs : List Int) : List Int :=
  xs ++ List.replicate (n - xs.length) padVal

/-- Batch-wide maximum of a list of lengths. -/
def batchMaxLen (lens : List Nat) : Nat :=
  lens.foldr Nat.max 0

/-- Modelled from the spec: the module defining `padded_collate_dpo`
is not part of this excerpt (only its test suite is).  Per §4.5:
right-pad the chosen-id sequences to their own batch maximum with
`padding_idx` and stack in sample order, then right-pad the
rejected-id sequences to their own batch maximum and stack in sample
order; concatenate the chosen block followed by the rejected block to
form `input_ids`; construct `labels` identically from the label
sequences using `ignore_idx` as the pad value.  Returns
`(input_ids, labels)`. -/
def padded_collate_dpo (batch : List DpoSample)
    (padding_idx ignore_idx : Int) : List (List Int) × List (List Int) :=
  let cmax := batchMaxLen (batch.map fun s => s.chosen_input_ids.length)
  let rmax := batchMaxLen (batch.map fun s => s.rejected_input_ids.length)
  let clmax := batchMaxLen (batch.map fun s => s.chosen_labels.length)
  let rlmax := batchMaxLen (batch.map fun s => s.rejected_labels.length)
  (batch.map (fun s => rightPadTo padding_idx cmax s.chosen_input_ids) ++
     batch.map (fun s => rightPadTo padding_idx rmax s.rejected_input_ids),
   batch.map (fun s => rightPadTo ignore_idx clmax s.chosen_labels) ++
     batch.map (fun s => rightPadTo ignore_idx rlmax s.rejected_labels))

/-- The all-empty sample, used as a `getD` default. -/
def emptyDpoSample : DpoSample :=
  { chosen_input_ids := [], chosen_labels := [],
    rejected_input_ids := [], rejected_labels := [] }

/-- C3: row `j` of `input_ids` is sample `j`'s chosen ids right-padded
with `padding_idx` to the chosen group's maximum, row
`batch.length + j` is sample `j`'s rejected ids right-padded to the
rejected group's maximum, `labels` is built the same way from the
label sequences with `ignore_idx`; and on the test suite's batch
(chosen lengths 3,2; rejected lengths 2,3; `padding_idx=0`,
`ignore_idx=-100`) the result matches `test_dpo_collate`'s expected
tensors exactly. -/
theorem padded_collate_dpo_spec :
    (∀ (batch : List DpoSample) (padding_idx ignore_idx : Int) (j : Nat),
      j < batch.length →
      ((padded_collate_dpo batch padding_idx ignore_idx).1.getD j [] =
        rightPadTo padding_idx
          (batchMaxLen (batch.map fun s => s.chosen_input_ids.length))
          ((batch.getD j emptyDpoSample).chosen_input_ids) ∧
       (padded_collate_dpo batch padding_idx ignore_idx).1.getD
           (batch.length + j) [] =
        rightPadTo padding_idx
          (batchMaxLen (batch.map fun s => s.rejected_input_ids.length))
          ((batch.getD j emptyDpoSample).rejected_input_ids) ∧
       (padded_collate_dpo batch padding_idx ignore_idx).2.getD j [] =
        rightPadTo ignore_idx
          (batchMaxLen (batch.map fun s => s.chosen_labels.length))
          ((batch.getD j emptyDpoSample).chosen_labels) ∧
       (padded_collate_dpo batch padding_idx ignore_idx).2.getD
           (batch.length + j) [] =
        rightPadTo ignore_idx
          (batchMaxLen (batch.map fun s => s.rejected_labels.length))
          ((batch.getD j emptyDpoSample).rejected_labels))) ∧
    (∀ (batch : List DpoSample) (padding_idx ignore_idx : Int),
      (padded_collate_dpo batch padding_idx ignore_idx).1.length =
        2 * batch.length ∧
      (padded_collate_dpo batch padding_idx ignore_idx).2.length =
        2 * batch.length) ∧
    padded_collate_dpo
      [{ chosen_input_ids := [1, 2, 3], chosen_labels := [4, 5, 6],
         rejected_input_ids := [7, 8], rejected_labels := [9, 10] },
       { chosen_input_ids := [11, 12], chosen_labels := [13, 14],
         rejected_input_ids := [15, 16, 17],
         rejected_labels := [18, 19, 20] }] 0 (-100) =
      ([[1, 2, 3], [11, 12, 0], [7, 8, 0], [15, 16, 17]],
       [[4, 5, 6], [13, 14, -100], [9, 10, -100], [18, 19, 20]]) := by
  refine ⟨?_, ?_, by decide⟩
  · intro batch padding_idx ignore_idx j hj
    unfold padded_collate_dpo
    refine ⟨?_, ?_, ?_, ?_⟩
    · rw [List.getD_append _ _ _ _ (by simpa using hj)]
      exact getD_map_of_lt _ _ _ _ emptyDpoSample hj
    · rw [List.getD_append_right _ _ _ _ (by simp)]
      simp only [List.length_map]
      rw [show batch.length + j - batch.length = j by omega]
      exact getD_map_of_lt _ _ _ _ emptyDpoSample hj
    · rw [List.getD_append _ _ _ _ (by simpa using hj)]
      exact getD_map_of_lt _ _ _ _ emptyDpoSample hj
    · rw [List.getD_append_right _ _ _ _ (by simp)]
      simp only [List.length_map]
      rw [show batch.length + j - batch.length = j by omega]
      exact getD_map_of_lt _ _ _ _ emptyDpoSample hj
  · intro batch padding_idx ignore_idx
    unfold padded_collate_dpo
    constructor <;> simp <;> ring

/-- Witness for C3 at the test batch, sample `j = 1`. -/
theorem padded_collate_dpo_spec_witness :
    ((padded_collate_dpo
      [{ chosen_input_ids := [1, 2, 3], chosen_labels := [4, 5, 6],
         rejected_input_ids := [7, 8], rejected_labels := [9, 10] },
       { chosen_input_ids := [11, 12], chosen_labels := [13, 14],
         rejected_input_ids := [15, 16, 17],
         rejected_labels := [18, 19, 20] }] 0 (-100)).1.getD 1 [] =
      rightPadTo 0
        (batchMaxLen
          (([{ chosen_input_ids := [1, 2, 3], chosen_labels := [4, 5, 6],
               rejected_input_ids := [7, 8], rejected_labels := [9, 10] },
             { chosen_input_ids := [11, 12], chosen_labels := [13, 14],
               rejected_input_ids := [15, 16, 17],
               rejected_labels := [18, 19, 20] }] :
              List DpoSample).map fun s => s.chosen_input_ids.length))
        (([{ chosen_input_ids := [1, 2, 3], chosen_labels := [4, 5, 6],
             rejected_input_ids := [7, 8], rejected_labels := [9, 10] },
           { chosen_input_ids := [11, 12], chosen_labels := [13, 14],
             rejected_input_ids := [15, 16, 17],
             rejected_labels := [18, 19, 20] }] :
            List DpoSample).getD 1 emptyDpoSample).chosen_input_ids) :=
  (padded_collate_dpo_spec.1
    [{ chosen_input_ids := [1, 2, 3], chosen_labels := [4, 5, 6],
       rejected_input_ids := [7, 8], rejected_labels := [9, 10] },
     { chosen_input_ids := [11, 12], chosen_labels := [13, 14],
       rejected_input_ids := [15, 16, 17],
       rejected_labels := [18, 19, 20] }] 0 (-100) 1 (by decide)).1

/-! ## Multimodal fixture generator (`src/mm_1.py`) -/

/-- One record of the multimodal fixture: an image filename and a
two-turn dialogue of (role, content) pairs. -/
structure MMRecord where
  images : String
  dialogue : List (String × String)
  deriving Repr, DecidableEq

/-- The `data` literal written to `my_data.json` by `main`. -/
def mmData : List MMRecord :=
  [{ images := "test_1.jpg",
     dialogue := [("user", "What is in this image?"),
                  ("assistant", "I see a cat.")] },
   { images := "test_2.jpg",
     dialogue := [("user", "What is in this image?"),
                  ("assistant", "I see a dog.")] },
   { images := "test_3.jpg",
     dialogue := [("user", "What is in this image?"),
                  ("assistant", "I see a car.")] },
   { images := "test_4.jpg",
     dialogue := [("user", "What is in this image?"),
                  ("assistant", "I see a yacht.")] },
   { images := "test_5.jpg",
     dialogue := [("user", "What is in this image?"),
                  ("assistant", "I see a platypus.")] }]

/-- The image files `main` saves, relative to the output directory:
`for i in range(5): img.save(os.path.join(filepath, f"images/test_{i}.jpg"))`. -/
def mmImageFilesWritten : List String :=
  (List.range 5).map fun i => "images/test_" ++ toString i ++ ".jpg"

/-- C8: the generator writes exactly `images/test_0.jpg` through
`images/test_4.jpg`, while record `i` (0-based) of the JSON names
`test_{i+1}.jpg`; hence `test_5.jpg` (named by the last record) is
never created and the created `test_0.jpg` is named by no record. -/
theorem mm_fixture_image_name_mismatch :
    mmImageFilesWritten =
      ["images/test_0.jpg", "images/test_1.jpg", "images/test_2.jpg",
       "images/test_3.jpg", "images/test_4.jpg"] ∧
    mmData.map (fun r => r.images) =
      (List.range 5).map (fun i => "test_" ++ toString (i + 1) ++ ".jpg") ∧
    decide ("images/test_5.jpg" ∈ mmImageFilesWritten) = false ∧
    mmImageFilesWritten.all (fun f => f != "images/test_5.jpg") = true ∧
    mmData.all (fun r => r.images != "test_0.jpg") = true := by
  refine ⟨by decide, by decide, by decide, by decide, by decide⟩
